import Mathlib

/-!
Shallow embedding of the trade-guardian risk/analytics core.

Numeric values of the source (TypeScript `number`) are embedded as `ℚ`;
machine strings that only carry display text (error/warning messages) are
embedded as tagged values carrying the same numeric payloads.

Sources embedded here:
 * `src/lib/riskEngine.ts` — the pure risk/analytics functions;
 * `src/context/TradingContext.tsx` — the `updatePortfolio` and `closeTrade`
   state transitions;
 * `src/types/trading.ts` — the record shapes.
-/

namespace TradeGuardian

/-- Trade side, from `src/types/trading.ts` (`'LONG' | 'SHORT'`). -/
inductive Side where
  | LONG
  | SHORT
deriving Repr, DecidableEq

/-- Trade status, from `src/types/trading.ts` (`'OPEN' | 'CLOSED' | 'CANCELLED'`). -/
inductive TradeStatus where
  | OPEN
  | CLOSED
  | CANCELLED
deriving Repr, DecidableEq

/-- Streak type of `PerformanceMetrics`, from `src/types/trading.ts`
(`'WIN' | 'LOSS' | 'NONE'`). -/
inductive StreakType where
  | WIN
  | LOSS
  | NONE
deriving Repr, DecidableEq

/-- The `Trade` record of `src/types/trading.ts`.  Optional TypeScript fields
(`exitPrice?`, `pnl?`) become `Option ℚ`; the display-only fields `date`,
`instrument` and `notes` carry no logic and are omitted. -/
structure Trade where
  id : String
  side : Side
  entryPrice : ℚ
  stopLoss : ℚ
  target : ℚ
  quantity : ℚ
  exitPrice : Option ℚ
  pnl : Option ℚ
  riskReward : ℚ
  status : TradeStatus
deriving Repr, DecidableEq

/-- The `RiskLimits` record of `src/types/trading.ts`. -/
structure RiskLimits where
  riskPerTrade : ℚ
  dailyLossLimit : ℚ
  weeklyLossLimit : ℚ
  monthlyLossLimit : ℚ
deriving Repr, DecidableEq

/-- The `PortfolioState` record of `src/types/trading.ts`. -/
structure PortfolioState where
  capital : ℚ
  leverage : ℚ
  effectiveCapital : ℚ
  currentEquity : ℚ
  peakEquity : ℚ
  dailyPnL : ℚ
  weeklyPnL : ℚ
  monthlyPnL : ℚ
  drawdown : ℚ
  maxDrawdown : ℚ
  isTradingLocked : Bool
  lockReason : Option String
deriving Repr, DecidableEq

/-- The `PositionSizeResult` record of `src/types/trading.ts`.  `quantity` is
the result of `Math.floor`, hence an integer. -/
structure PositionSizeResult where
  quantity : ℤ
  positionSize : ℚ
  marginRequired : ℚ
  maxLoss : ℚ
  maxProfit : ℚ
  riskAmount : ℚ
deriving Repr, DecidableEq

/-- Tags for the messages `validateTrade` pushes onto its `errors` array,
carrying the same numeric payloads the template strings interpolate
(`toFixed` display rounding is not modelled). -/
inductive VError where
  | rrBelowMin (riskReward : ℚ)
  | riskExceedsLimit (riskPercent limit : ℚ)
  | dailyLossBreach (limit : ℚ)
  | weeklyLossBreach (limit : ℚ)
  | monthlyLossBreach (limit : ℚ)
  | drawdownExceedsMax (drawdown : ℚ)
  | tradingLocked (reason : Option String)
deriving Repr, DecidableEq

/-- Tags for the messages `validateTrade` pushes onto its `warnings` array. -/
inductive VWarning where
  | drawdownElevated (drawdown : ℚ)
deriving Repr, DecidableEq

/-- The `ValidationResult` record of `src/types/trading.ts`, with messages
as tags. -/
structure ValidationResult where
  isValid : Bool
  errors : List VError
  warnings : List VWarning
deriving Repr, DecidableEq

/-- The `PerformanceMetrics` record of `src/types/trading.ts`.  Counters are
naturals; `profitFactor` can be JavaScript `Infinity`, embedded as `⊤` of
`WithTop ℚ`. -/
structure PerformanceMetrics where
  totalTrades : ℕ
  winningTrades : ℕ
  losingTrades : ℕ
  winRate : ℚ
  avgWin : ℚ
  avgLoss : ℚ
  expectancy : ℚ
  profitFactor : WithTop ℚ
  maxWinStreak : ℕ
  maxLossStreak : ℕ
  currentStreak : ℕ
  streakType : StreakType
deriving Repr, DecidableEq

/-- One row of the array returned by `calculateCompounding`
(`{ month, capital, profit, cumulativeProfit }`). -/
structure CompoundingProjection where
  month : ℕ
  capital : ℚ
  profit : ℚ
  cumulativeProfit : ℚ
deriving Repr, DecidableEq

/-- The session state of `src/context/TradingContext.tsx` (`SessionState`);
`startTime` and `cooldownEndTime` are wall-clock values with no logic attached
and are omitted. -/
structure SessionState where
  isActive : Bool
  tradesCount : ℕ
  consecutiveLosses : ℕ
deriving Repr, DecidableEq

/-- Embedding of `calculatePositionSize` from `src/lib/riskEngine.ts` (lines 10–35). -/
def calculatePositionSize (capital riskPercent stopLossPercent entryPrice : ℚ)
    (leverage : ℚ := 1) : PositionSizeResult :=
  let riskAmount := capital * riskPercent / 100
  let stopLossAmount := entryPrice * stopLossPercent / 100
  let quantity : ℤ := if stopLossAmount > 0 then ⌊riskAmount / stopLossAmount⌋ else 0
  let positionSize := (quantity : ℚ) * entryPrice
  let marginRequired := positionSize / leverage
  { quantity := quantity
    positionSize := positionSize
    marginRequired := marginRequired
    maxLoss := riskAmount
    maxProfit := riskAmount * 2
    riskAmount := riskAmount }

/-- Embedding of `calculateDrawdown` from `src/lib/riskEngine.ts` (lines 37–40). -/
def calculateDrawdown (currentEquity peakEquity : ℚ) : ℚ :=
  if peakEquity ≤ 0 then 0
  else (peakEquity - currentEquity) / peakEquity * 100

/-- Embedding of `validateTrade` from `src/lib/riskEngine.ts` (lines 42–98).  The `errors`
and `warnings` arrays are built in the source's push order. -/
def validateTrade (riskReward riskPercent : ℚ) (limits : RiskLimits)
    (portfolio : PortfolioState) : ValidationResult :=
  let errors1 : List VError :=
    if riskReward < 2 then [VError.rrBelowMin riskReward] else []
  let errors2 : List VError :=
    errors1 ++ (if riskPercent > limits.riskPerTrade then
      [VError.riskExceedsLimit riskPercent limits.riskPerTrade] else [])
  let dailyLossPercent := |portfolio.dailyPnL| / portfolio.capital * 100
  let errors3 : List VError :=
    errors2 ++ (if portfolio.dailyPnL < 0 ∧ dailyLossPercent ≥ limits.dailyLossLimit then
      [VError.dailyLossBreach limits.dailyLossLimit] else [])
  let weeklyLossPercent := |portfolio.weeklyPnL| / portfolio.capital * 100
  let errors4 : List VError :=
    errors3 ++ (if portfolio.weeklyPnL < 0 ∧ weeklyLossPercent ≥ limits.weeklyLossLimit then
      [VError.weeklyLossBreach limits.weeklyLossLimit] else [])
  let monthlyLossPercent := |portfolio.monthlyPnL| / portfolio.capital * 100
  let errors5 : List VError :=
    errors4 ++ (if portfolio.monthlyPnL < 0 ∧ monthlyLossPercent ≥ limits.monthlyLossLimit then
      [VError.monthlyLossBreach limits.monthlyLossLimit] else [])
  let warnings : List VWarning :=
    if portfolio.drawdown > 10 then [VWarning.drawdownElevated portfolio.drawdown] else []
  let errors6 : List VError :=
    errors5 ++ (if portfolio.drawdown > 20 then
      [VError.drawdownExceedsMax portfolio.drawdown] else [])
  let errors7 : List VError :=
    errors6 ++ (if portfolio.isTradingLocked then
      [VError.tradingLocked portfolio.lockReason] else [])
  { isValid := errors7.length = 0
    errors := errors7
    warnings := warnings }

/-- Embedding of `calculateKellyCriterion` from `src/lib/riskEngine.ts` (lines 100–110)
over the field `ℚ`, whose division is total (`x / 0 = 0`).  The guard tests
`winRate === 1` verbatim, even though `winRate` is a percentage (it is
divided by 100 two lines later).  This simplification is faithful on the
guard branches and whenever `avgWin ≠ 0` (theorem `kelly_models_agree`); the
unguarded division `(1 - winProbability) / lossRatio` otherwise produces
JavaScript infinities or NaN, modelled by `calculateKellyCriterionJS`. -/
def calculateKellyCriterion (winRate avgWin avgLoss : ℚ) : ℚ :=
  if avgLoss = 0 ∨ winRate = 0 ∨ winRate = 1 then 0
  else
    let winProbability := winRate / 100
    let lossRatio := avgWin / avgLoss
    let kelly := winProbability - (1 - winProbability) / lossRatio
    max 0 (min (kelly * 50) 25)

/-- The `(t.pnl ?? 0)` coalescing the source applies whenever it reads a
trade's pnl. -/
def pnlOf (t : Trade) : ℚ := t.pnl.getD 0

/-- The all-zero metrics record returned by `calculatePerformanceMetrics`
when no closed trade exists (lines 115–130 of `src/lib/riskEngine.ts`). -/
def emptyMetrics : PerformanceMetrics :=
  { totalTrades := 0
    winningTrades := 0
    losingTrades := 0
    winRate := 0
    avgWin := 0
    avgLoss := 0
    expectancy := 0
    profitFactor := 0
    maxWinStreak := 0
    maxLossStreak := 0
    currentStreak := 0
    streakType := StreakType.NONE }

/-- The mutable accumulator of the streak `forEach` loop in
`calculatePerformanceMetrics` (lines 146–161). -/
structure StreakState where
  maxWinStreak : ℕ
  maxLossStreak : ℕ
  currentWinStreak : ℕ
  currentLossStreak : ℕ
deriving Repr, DecidableEq

/-- One iteration of the streak `forEach` loop (lines 151–161 of
`src/lib/riskEngine.ts`): `pnl > 0` extends the win streak, anything else —
including an exactly-zero pnl — extends the loss streak. -/
def streakStep (s : StreakState) (t : Trade) : StreakState :=
  if pnlOf t > 0 then
    let w := s.currentWinStreak + 1
    { s with currentWinStreak := w, currentLossStreak := 0,
             maxWinStreak := max s.maxWinStreak w }
  else
    let l := s.currentLossStreak + 1
    { s with currentLossStreak := l, currentWinStreak := 0,
             maxLossStreak := max s.maxLossStreak l }

/-- The `closedTrades` filter of `calculatePerformanceMetrics` (line 113):
status `CLOSED` and `pnl !== undefined`. -/
def closedTradesOf (trades : List Trade) : List Trade :=
  trades.filter (fun t => t.status = TradeStatus.CLOSED ∧ t.pnl.isSome)

/-- Embedding of `calculatePerformanceMetrics` from `src/lib/riskEngine.ts` (lines 112–181). -/
def calculatePerformanceMetrics (trades : List Trade) : PerformanceMetrics :=
  let closedTrades := closedTradesOf trades
  if closedTrades.isEmpty then emptyMetrics
  else
    let winningTrades := closedTrades.filter (fun t => pnlOf t > 0)
    let losingTrades := closedTrades.filter (fun t => pnlOf t < 0)
    let totalWins := (winningTrades.map pnlOf).sum
    let totalLosses := |(losingTrades.map pnlOf).sum|
    let avgWin := if winningTrades.length > 0 then totalWins / winningTrades.length else 0
    let avgLoss := if losingTrades.length > 0 then totalLosses / losingTrades.length else 0
    let winRate := (winningTrades.length : ℚ) / closedTrades.length * 100
    let expectancy := avgWin * (winRate / 100) - avgLoss * (1 - winRate / 100)
    let profitFactor : WithTop ℚ :=
      if totalLosses > 0 then (totalWins / totalLosses : ℚ)
      else if totalWins > 0 then ⊤ else 0
    let st := closedTrades.foldl streakStep ⟨0, 0, 0, 0⟩
    let streakType :=
      match closedTrades.getLast? with
      | some lastTrade =>
          if pnlOf lastTrade > 0 then StreakType.WIN
          else if pnlOf lastTrade < 0 then StreakType.LOSS
          else StreakType.NONE
      | none => StreakType.NONE
    let currentStreak :=
      match streakType with
      | StreakType.WIN => st.currentWinStreak
      | StreakType.LOSS => st.currentLossStreak
      | StreakType.NONE => 0
    { totalTrades := closedTrades.length
      winningTrades := winningTrades.length
      losingTrades := losingTrades.length
      winRate := winRate
      avgWin := avgWin
      avgLoss := avgLoss
      expectancy := expectancy
      profitFactor := profitFactor
      maxWinStreak := st.maxWinStreak
      maxLossStreak := st.maxLossStreak
      currentStreak := currentStreak
      streakType := streakType }

/-- The body of the `for (let month = 1; month <= months; month++)` loop of
`calculateCompounding`, with `remaining` iterations left and the loop counter
at `month`. -/
def compoundingFrom (capital cumulativeProfit rate : ℚ) (month : ℕ) :
    (remaining : ℕ) → List CompoundingProjection
  | 0 => []
  | remaining + 1 =>
    let profit := capital * (rate / 100)
    let capital2 := capital + profit
    let cumulativeProfit2 := cumulativeProfit + profit
    { month := month, capital := capital2, profit := profit,
      cumulativeProfit := cumulativeProfit2 } ::
      compoundingFrom capital2 cumulativeProfit2 rate (month + 1) remaining

/-- Embedding of `calculateCompounding` from `src/lib/riskEngine.ts` (lines 183–206). -/
def calculateCompounding (startCapital monthlyReturnPercent : ℚ) (months : ℕ) :
    List CompoundingProjection :=
  compoundingFrom startCapital 0 monthlyReturnPercent 1 months

/-- Embedding of `getAdjustedRiskForDrawdown` from `src/lib/riskEngine.ts` (lines 254–264). -/
def getAdjustedRiskForDrawdown (baseRisk drawdownPercent : ℚ) : ℚ :=
  if drawdownPercent < 5 then baseRisk
  else if drawdownPercent < 10 then baseRisk * 0.75
  else if drawdownPercent < 15 then baseRisk * 0.5
  else if drawdownPercent < 20 then baseRisk * 0.25
  else 0

/-- A `Partial<PortfolioState>` argument of `updatePortfolio`: every field
optional, `none` meaning the field is absent from the update object. -/
structure PortfolioUpdate where
  capital : Option ℚ := none
  leverage : Option ℚ := none
  effectiveCapital : Option ℚ := none
  currentEquity : Option ℚ := none
  peakEquity : Option ℚ := none
  dailyPnL : Option ℚ := none
  weeklyPnL : Option ℚ := none
  monthlyPnL : Option ℚ := none
  drawdown : Option ℚ := none
  maxDrawdown : Option ℚ := none
  isTradingLocked : Option Bool := none
  lockReason : Option (Option String) := none
deriving Repr, DecidableEq

/-- The spread `{ ...prev, ...updates }` at line 82 of
`src/context/TradingContext.tsx`. -/
def applyUpdate (prev : PortfolioState) (u : PortfolioUpdate) : PortfolioState :=
  { capital := u.capital.getD prev.capital
    leverage := u.leverage.getD prev.leverage
    effectiveCapital := u.effectiveCapital.getD prev.effectiveCapital
    currentEquity := u.currentEquity.getD prev.currentEquity
    peakEquity := u.peakEquity.getD prev.peakEquity
    dailyPnL := u.dailyPnL.getD prev.dailyPnL
    weeklyPnL := u.weeklyPnL.getD prev.weeklyPnL
    monthlyPnL := u.monthlyPnL.getD prev.monthlyPnL
    drawdown := u.drawdown.getD prev.drawdown
    maxDrawdown := u.maxDrawdown.getD prev.maxDrawdown
    isTradingLocked := u.isTradingLocked.getD prev.isTradingLocked
    lockReason := u.lockReason.getD prev.lockReason }

/-- The `updatePortfolio` state transition of `src/context/TradingContext.tsx`
(lines 80–94): merge the partial update, recompute `effectiveCapital` and
`drawdown`, fold the new drawdown into `maxDrawdown`, and only then raise
`peakEquity` when `currentEquity` exceeds it. -/
def updatePortfolio (prev : PortfolioState) (u : PortfolioUpdate) : PortfolioState :=
  let updated := applyUpdate prev u
  let updated2 := { updated with effectiveCapital := updated.capital * updated.leverage }
  let updated3 :=
    { updated2 with drawdown := calculateDrawdown updated2.currentEquity updated2.peakEquity }
  let updated4 := { updated3 with maxDrawdown := max updated3.maxDrawdown updated3.drawdown }
  if updated4.currentEquity > updated4.peakEquity then
    { updated4 with peakEquity := updated4.currentEquity }
  else updated4

/-- The pnl computed by `closeTrade` (lines 113–115 of
`src/context/TradingContext.tsx`). -/
def computePnl (t : Trade) (exitPrice : ℚ) : ℚ :=
  match t.side with
  | Side.LONG => (exitPrice - t.entryPrice) * t.quantity
  | Side.SHORT => (t.entryPrice - exitPrice) * t.quantity

/-- The per-trade update of `closeTrade`'s first `setTrades` map
(lines 110–123 of `src/context/TradingContext.tsx`). -/
def closeTradeEntry (id : String) (exitPrice : ℚ) (t : Trade) : Trade :=
  if t.id = id then
    { t with exitPrice := some exitPrice, pnl := some (computePnl t exitPrice),
             status := TradeStatus.CLOSED }
  else t

/-- The application state touched by `closeTrade`: the trade list, the
portfolio, and the session. -/
structure AppState where
  trades : List Trade
  portfolio : PortfolioState
  session : SessionState
deriving Repr, DecidableEq

/-- Embedding of `lockTrading` from `src/context/TradingContext.tsx` (lines 174–180),
restricted to the portfolio record it updates. -/
def lockTrading (p : PortfolioState) (reason : String) : PortfolioState :=
  { p with isTradingLocked := true, lockReason := some reason }

/-- The `closeTrade` transition of `src/context/TradingContext.tsx`
(lines 109–151).  The first `setTrades` maps the closing update over the
trade list; the second finds the closed trade and — only when its pnl is
truthy, i.e. present and nonzero — pushes the pnl into the portfolio
accumulators via `updatePortfolio` and updates the consecutive-loss counter,
locking trading at three consecutive losses. -/
def closeTrade (s : AppState) (id : String) (exitPrice : ℚ) : AppState :=
  let trades2 := s.trades.map (closeTradeEntry id exitPrice)
  match trades2.find? (fun t => t.id = id) with
  | some trade =>
    match trade.pnl with
    | some p =>
      if p ≠ 0 then
        let portfolio2 := updatePortfolio s.portfolio
          { dailyPnL := some (s.portfolio.dailyPnL + p)
            weeklyPnL := some (s.portfolio.weeklyPnL + p)
            monthlyPnL := some (s.portfolio.monthlyPnL + p)
            currentEquity := some (s.portfolio.currentEquity + p) }
        if p < 0 then
          let newLosses := s.session.consecutiveLosses + 1
          let portfolio3 :=
            if newLosses ≥ 3 then
              lockTrading portfolio2 "3 consecutive losses - mandatory cooldown"
            else portfolio2
          { trades := trades2, portfolio := portfolio3,
            session := { s.session with consecutiveLosses := newLosses } }
        else
          { trades := trades2, portfolio := portfolio2,
            session := { s.session with consecutiveLosses := 0 } }
      else { s with trades := trades2 }
    | none => { s with trades := trades2 }
  | none => { s with trades := trades2 }

/-- Embedding of `DEFAULT_PORTFOLIO` from `src/context/TradingContext.tsx` (lines 27–39). -/
def defaultPortfolio : PortfolioState :=
  { capital := 100000
    leverage := 1
    effectiveCapital := 100000
    currentEquity := 100000
    peakEquity := 100000
    dailyPnL := 0
    weeklyPnL := 0
    monthlyPnL := 0
    drawdown := 0
    maxDrawdown := 0
    isTradingLocked := false
    lockReason := none }

/-- Values of a JavaScript `number` as they arise in `calculateKellyCriterion`:
a finite value (embedded as `ℚ`), the two IEEE infinities, or NaN.  A finite
zero is modelled as +0; the source's inputs are the non-negative aggregates of
`calculatePerformanceMetrics`, so a negative zero never reaches this function. -/
inductive JSVal where
  | real (q : ℚ)
  | posInf
  | negInf
  | nan
deriving Repr, DecidableEq

/-- JavaScript subtraction on `JSVal` (IEEE rules for the infinities, NaN
propagation). -/
def JSVal.sub : JSVal → JSVal → JSVal
  | nan, _ => nan
  | _, nan => nan
  | real a, real b => real (a - b)
  | real _, posInf => negInf
  | real _, negInf => posInf
  | posInf, real _ => posInf
  | negInf, real _ => negInf
  | posInf, posInf => nan
  | posInf, negInf => posInf
  | negInf, posInf => negInf
  | negInf, negInf => nan

/-- JavaScript multiplication on `JSVal` (sign rules for the infinities,
`±∞ × 0 = NaN`, NaN propagation). -/
def JSVal.mul : JSVal → JSVal → JSVal
  | nan, _ => nan
  | _, nan => nan
  | real a, real b => real (a * b)
  | real a, posInf => if 0 < a then posInf else if a < 0 then negInf else nan
  | real a, negInf => if 0 < a then negInf else if a < 0 then posInf else nan
  | posInf, real b => if 0 < b then posInf else if b < 0 then negInf else nan
  | negInf, real b => if 0 < b then negInf else if b < 0 then posInf else nan
  | posInf, posInf => posInf
  | posInf, negInf => negInf
  | negInf, posInf => negInf
  | negInf, negInf => posInf

/-- JavaScript division on `JSVal` with the divisor zero modelled as +0:
`x/0` is `+∞` for `x > 0`, `−∞` for `x < 0`, and NaN for `0/0`; a finite
value over an infinity is 0; NaN propagates. -/
def JSVal.div : JSVal → JSVal → JSVal
  | nan, _ => nan
  | _, nan => nan
  | real a, real b =>
    if b = 0 then (if 0 < a then posInf else if a < 0 then negInf else nan)
    else real (a / b)
  | real _, posInf => real 0
  | real _, negInf => real 0
  | posInf, real b => if 0 ≤ b then posInf else negInf
  | negInf, real b => if 0 ≤ b then negInf else posInf
  | posInf, posInf => nan
  | posInf, negInf => nan
  | negInf, posInf => nan
  | negInf, negInf => nan

/-- JavaScript `Math.min` on `JSVal`: NaN if either argument is NaN,
otherwise the order with `−∞` least and `+∞` greatest. -/
def JSVal.min : JSVal → JSVal → JSVal
  | nan, _ => nan
  | _, nan => nan
  | negInf, _ => negInf
  | _, negInf => negInf
  | posInf, y => y
  | x, posInf => x
  | real a, real b => real (Min.min a b)

/-- JavaScript `Math.max` on `JSVal`: NaN if either argument is NaN,
otherwise the order with `−∞` least and `+∞` greatest. -/
def JSVal.max : JSVal → JSVal → JSVal
  | nan, _ => nan
  | _, nan => nan
  | posInf, _ => posInf
  | _, posInf => posInf
  | negInf, y => y
  | x, negInf => x
  | real a, real b => real (Max.max a b)

/-- Embedding of `calculateKellyCriterion` from `src/lib/riskEngine.ts`
(lines 100–110) over JavaScript double special values: the division
`(1 - winProbability) / lossRatio` is unguarded in the source, so when
`avgWin = 0` it produces an infinity or, at `winRate = 100`, `0/0 = NaN`,
which then propagates through `Math.min`/`Math.max`.  Finite double rounding
is not modelled. -/
def calculateKellyCriterionJS (winRate avgWin avgLoss : ℚ) : JSVal :=
  if avgLoss = 0 ∨ winRate = 0 ∨ winRate = 1 then JSVal.real 0
  else
    let winProbability := JSVal.div (JSVal.real winRate) (JSVal.real 100)
    let lossRatio := JSVal.div (JSVal.real avgWin) (JSVal.real avgLoss)
    let kelly := JSVal.sub winProbability
      (JSVal.div (JSVal.sub (JSVal.real 1) winProbability) lossRatio)
    JSVal.max (JSVal.real 0) (JSVal.min (JSVal.mul kelly (JSVal.real 50)) (JSVal.real 25))

/-- Embedding of `DEFAULT_RISK_LIMITS` from `src/lib/riskEngine.ts` (lines 3–8). -/
def DEFAULT_RISK_LIMITS : RiskLimits :=
  { riskPerTrade := 1
    dailyLossLimit := 3
    weeklyLossLimit := 6
    monthlyLossLimit := 12 }

/-- Default entry used with `List.getD` when indexing compounding rows. -/
def zeroProjection : CompoundingProjection := ⟨0, 0, 0, 0⟩

/-- Spec-side definition for C3: the length of the trailing run of winning
trades (pnl > 0) at the end of a trade list. -/
def trailingWinRun (l : List Trade) : ℕ :=
  (l.reverse.takeWhile (fun t => decide (pnlOf t > 0))).length

/-- Spec-side definition for C3: the length of the trailing run of
non-winning trades (pnl ≤ 0, zero included) at the end of a trade list. -/
def trailingLossRun (l : List Trade) : ℕ :=
  (l.reverse.takeWhile (fun t => decide (pnlOf t ≤ 0))).length

/-- A closed trade whose pnl is exactly zero (exit price equal to entry
price). -/
def zeroPnlTrade : Trade :=
  { id := "t1", side := Side.LONG, entryPrice := 100, stopLoss := 90, target := 120,
    quantity := 1, exitPrice := some 100, pnl := some 0, riskReward := 2,
    status := TradeStatus.CLOSED }

/-- A closed losing trade, used to instantiate streak statements. -/
def lossTrade : Trade :=
  { id := "t2", side := Side.LONG, entryPrice := 100, stopLoss := 90, target := 120,
    quantity := 1, exitPrice := some 50, pnl := some (-50), riskReward := 2,
    status := TradeStatus.CLOSED }

/-- An open trade about to be closed at its entry price. -/
def openTrade : Trade :=
  { id := "t1", side := Side.LONG, entryPrice := 100, stopLoss := 90, target := 120,
    quantity := 1, exitPrice := none, pnl := none, riskReward := 2,
    status := TradeStatus.OPEN }

/-- A sample application state holding one open trade and a live session with
two consecutive losses. -/
def sampleState : AppState :=
  { trades := [openTrade]
    portfolio := defaultPortfolio
    session := { isActive := true, tradesCount := 1, consecutiveLosses := 2 } }

/-- C1: the spec says `calculateKellyCriterion` returns 0 whenever
`avgLoss = 0`, `winRate = 0` or `winRate = 100`.  The first two guards hold,
but the third is broken in the code: the guard tests `winRate === 1` while
`winRate` is a percentage, so at `winRate = 100` (with `avgWin = avgLoss = 1`)
the function returns the capped value 25 instead of 0. -/
theorem kelly_winRate_100_bug :
    calculateKellyCriterion 100 1 1 = 25 ∧
    (∀ avgWin avgLoss : ℚ, calculateKellyCriterion 0 avgWin avgLoss = 0) ∧
    (∀ winRate avgWin : ℚ, calculateKellyCriterion winRate avgWin 0 = 0) := by
  refine ⟨by norm_num [calculateKellyCriterion], ?_, ?_⟩
  · intro avgWin avgLoss
    simp [calculateKellyCriterion]
  · intro winRate avgWin
    simp [calculateKellyCriterion]

/-- Helper: over `ℚ`, where division is total, `calculateKellyCriterionJS`
and `calculateKellyCriterion` agree whenever `avgWin ≠ 0`: the unguarded
division then has a nonzero divisor and every intermediate value is finite. -/
theorem kelly_models_agree (winRate avgWin avgLoss : ℚ) (hw : avgWin ≠ 0) :
    calculateKellyCriterionJS winRate avgWin avgLoss =
      JSVal.real (calculateKellyCriterion winRate avgWin avgLoss) := by
  by_cases hg : avgLoss = 0 ∨ winRate = 0 ∨ winRate = 1
  · rw [calculateKellyCriterionJS, if_pos hg, calculateKellyCriterion, if_pos hg]
  · have havgLoss : avgLoss ≠ 0 := fun h => hg (Or.inl h)
    have hratio : avgWin / avgLoss ≠ 0 := div_ne_zero hw havgLoss
    rw [calculateKellyCriterionJS, if_neg hg, calculateKellyCriterion, if_neg hg]
    norm_num [JSVal.div, JSVal.sub, JSVal.mul, JSVal.min, JSVal.max, havgLoss, hratio]

/-- C8 counterexample: at `winRate = 100`, `avgWin = 0`, `avgLoss = 1` the
guard passes (it tests `winRate === 1`, not 100), `lossRatio = 0`, and the
unguarded division computes `0/0 = NaN`, which propagates through
`Math.min`/`Math.max`: the program returns NaN — not a value in `[0, 25]`
and not the clamped `rawKelly × 50`. -/
theorem kelly_nan_outside_range :
    calculateKellyCriterionJS 100 0 1 = JSVal.nan ∧
    calculateKellyCriterionJS 100 0 1 ≠
      JSVal.real (max 0 (min ((((100:ℚ)/100) - (1 - 100/100) / ((0:ℚ)/1)) * 50) 25)) := by
  have hval : calculateKellyCriterionJS 100 0 1 = JSVal.nan := by
    norm_num [calculateKellyCriterionJS, JSVal.div, JSVal.sub, JSVal.mul, JSVal.min, JSVal.max]
  rw [hval]
  exact ⟨rfl, by simp⟩

/-- C8 amended: whenever `calculateKellyCriterion` returns a (finite) number,
that number lies within `[0, 25]`; the sole non-numeric outcome is NaN,
produced exactly when the guard passes with `winRate = 100` and `avgWin = 0`
(the `0/0` path); and away from that degenerate region — guard false,
`avgWin ≠ 0` — the result is exactly `rawKelly × 50` clamped below at 0 and
above at 25. -/
theorem kelly_range_except_nan (winRate avgWin avgLoss : ℚ) :
    (∀ q : ℚ, calculateKellyCriterionJS winRate avgWin avgLoss = JSVal.real q →
      0 ≤ q ∧ q ≤ 25) ∧
    (calculateKellyCriterionJS winRate avgWin avgLoss = JSVal.nan ↔
      ¬(avgLoss = 0 ∨ winRate = 0 ∨ winRate = 1) ∧ winRate = 100 ∧ avgWin = 0) ∧
    (¬(avgLoss = 0 ∨ winRate = 0 ∨ winRate = 1) → avgWin ≠ 0 →
      calculateKellyCriterionJS winRate avgWin avgLoss =
        JSVal.real (max 0 (min ((winRate / 100 - (1 - winRate / 100) / (avgWin / avgLoss)) * 50) 25))) := by
  by_cases hg : avgLoss = 0 ∨ winRate = 0 ∨ winRate = 1
  · rw [calculateKellyCriterionJS, if_pos hg]
    refine ⟨fun q hq => ?_, ?_, fun hng => absurd hg hng⟩
    · have : (0:ℚ) = q := by simpa using hq
      subst this
      norm_num
    · constructor
      · intro hnan; simp at hnan
      · rintro ⟨hng, -, -⟩; exact absurd hg hng
  · have havgLoss : avgLoss ≠ 0 := fun h => hg (Or.inl h)
    by_cases hw : avgWin = 0
    · subst hw
      rcases lt_trichotomy winRate 100 with hlt | heq | hgt
      · have h1p : 0 < 1 - winRate / 100 := by
          have : winRate / 100 < 1 := (div_lt_one (by norm_num)).mpr hlt
          linarith
        have hval : calculateKellyCriterionJS winRate 0 avgLoss = JSVal.real 0 := by
          rw [calculateKellyCriterionJS, if_neg hg]
          norm_num [JSVal.div, JSVal.sub, JSVal.mul, JSVal.min, JSVal.max, havgLoss, h1p]
        rw [hval]
        refine ⟨fun q hq => ?_, ?_, fun _ hw2 => absurd rfl hw2⟩
        · have : (0:ℚ) = q := by simpa using hq
          subst this; norm_num
        · constructor
          · intro hnan; simp at hnan
          · rintro ⟨-, h100, -⟩; exact absurd h100 (by linarith)
      · subst heq
        have hval : calculateKellyCriterionJS 100 0 avgLoss = JSVal.nan := by
          rw [calculateKellyCriterionJS, if_neg hg]
          norm_num [JSVal.div, JSVal.sub, JSVal.mul, JSVal.min, JSVal.max, havgLoss]
        rw [hval]
        refine ⟨fun q hq => ?_, ?_, fun _ hw2 => absurd rfl hw2⟩
        · simp at hq
        · exact ⟨fun _ => ⟨hg, rfl, rfl⟩, fun _ => rfl⟩
      · have h1p : 1 - winRate / 100 < 0 := by
          have : (1:ℚ) < winRate / 100 := by
            rw [lt_div_iff₀ (by norm_num : (0:ℚ) < 100)]; linarith
          linarith
        have hval : calculateKellyCriterionJS winRate 0 avgLoss = JSVal.real 25 := by
          rw [calculateKellyCriterionJS, if_neg hg]
          norm_num [JSVal.div, JSVal.sub, JSVal.mul, JSVal.min, JSVal.max, havgLoss, h1p,
            not_lt.mpr (le_of_lt h1p)]
        rw [hval]
        refine ⟨fun q hq => ?_, ?_, fun _ hw2 => absurd rfl hw2⟩
        · have : (25:ℚ) = q := by simpa using hq
          subst this; norm_num
        · constructor
          · intro hnan; simp at hnan
          · rintro ⟨-, h100, -⟩; exact absurd h100 (by linarith)
    · have hratio : avgWin / avgLoss ≠ 0 := div_ne_zero hw havgLoss
      have hval : calculateKellyCriterionJS winRate avgWin avgLoss =
          JSVal.real (max 0 (min ((winRate / 100 - (1 - winRate / 100) / (avgWin / avgLoss)) * 50) 25)) := by
        rw [calculateKellyCriterionJS, if_neg hg]
        norm_num [JSVal.div, JSVal.sub, JSVal.mul, JSVal.min, JSVal.max, havgLoss, hratio]
      rw [hval]
      refine ⟨fun q hq => ?_, ?_, fun _ _ => rfl⟩
      · have : max 0 (min ((winRate / 100 - (1 - winRate / 100) / (avgWin / avgLoss)) * 50) 25) = q := by
          simpa using hq
        subst this
        exact ⟨le_max_left _ _, max_le (by norm_num) (min_le_right _ _)⟩
      · constructor
        · intro hnan; simp at hnan
        · rintro ⟨-, -, hw0⟩; exact absurd hw0 hw

/-- Witness for C8's amended theorem at `winRate = 50`, `avgWin = 2`,
`avgLoss = 1`: the guard does not fire, the result is the clamped raw-Kelly
value, and it lies within `[0, 25]`. -/
theorem kelly_range_except_nan_witness :
    calculateKellyCriterionJS 50 2 1 =
      JSVal.real (max 0 (min ((((50:ℚ) / 100) - (1 - 50 / 100) / ((2:ℚ) / 1)) * 50) 25)) ∧
    (0:ℚ) ≤ max 0 (min ((((50:ℚ) / 100) - (1 - 50 / 100) / ((2:ℚ) / 1)) * 50) 25) ∧
    max 0 (min ((((50:ℚ) / 100) - (1 - 50 / 100) / ((2:ℚ) / 1)) * 50) 25) ≤ 25 := by
  have h := kelly_range_except_nan 50 2 1
  have he := h.2.2 (by norm_num) (by norm_num)
  exact ⟨he, (h.1 _ he).1, (h.1 _ he).2⟩

/-- C5: `getAdjustedRiskForDrawdown` is the tiered step function with
half-open boundaries (a drawdown exactly at a boundary takes the
higher-drawdown tier), and the three sample points of the spec evaluate as
claimed. -/
theorem adjusted_risk_tiers :
    (∀ baseRisk d : ℚ,
      (d < 5 → getAdjustedRiskForDrawdown baseRisk d = baseRisk) ∧
      (5 ≤ d ∧ d < 10 → getAdjustedRiskForDrawdown baseRisk d = baseRisk * 0.75) ∧
      (10 ≤ d ∧ d < 15 → getAdjustedRiskForDrawdown baseRisk d = baseRisk * 0.5) ∧
      (15 ≤ d ∧ d < 20 → getAdjustedRiskForDrawdown baseRisk d = baseRisk * 0.25) ∧
      (20 ≤ d → getAdjustedRiskForDrawdown baseRisk d = 0)) ∧
    getAdjustedRiskForDrawdown 1 10 = 0.5 ∧
    getAdjustedRiskForDrawdown 1 20 = 0 ∧
    getAdjustedRiskForDrawdown 1 (499/100) = 1 := by
  refine ⟨?_, by norm_num [getAdjustedRiskForDrawdown],
    by norm_num [getAdjustedRiskForDrawdown], by norm_num [getAdjustedRiskForDrawdown]⟩
  intro baseRisk d
  refine ⟨fun h => by simp [getAdjustedRiskForDrawdown, h], ?_, ?_, ?_, ?_⟩
  · rintro ⟨h1, h2⟩
    rw [getAdjustedRiskForDrawdown, if_neg (not_lt.mpr h1), if_pos h2]
  · rintro ⟨h1, h2⟩
    rw [getAdjustedRiskForDrawdown, if_neg (by linarith), if_neg (not_lt.mpr h1), if_pos h2]
  · rintro ⟨h1, h2⟩
    rw [getAdjustedRiskForDrawdown, if_neg (by linarith), if_neg (by linarith),
      if_neg (not_lt.mpr h1), if_pos h2]
  · intro h
    rw [getAdjustedRiskForDrawdown, if_neg (by linarith), if_neg (by linarith),
      if_neg (by linarith), if_neg (not_lt.mpr h)]

/-- Witness for C5's tier implications at `baseRisk = 1`, `d = 7`: the
`[5, 10)` tier applies and yields `0.75`. -/
theorem adjusted_risk_tiers_witness :
    (5 : ℚ) ≤ 7 ∧ (7 : ℚ) < 10 ∧ getAdjustedRiskForDrawdown 1 7 = 1 * 0.75 := by
  refine ⟨by norm_num, by norm_num, ?_⟩
  exact (adjusted_risk_tiers.1 1 7).2.1 ⟨by norm_num, by norm_num⟩

/-- C2 counterexample: updating the default portfolio with a current equity of
110000 (above the previous peak of 100000) stores drawdown `-10`, which is
negative and differs from the claimed `max(0, (peak − equity)/peak × 100) = 0`. -/
theorem updatePortfolio_negative_drawdown :
    (updatePortfolio defaultPortfolio { currentEquity := some 110000 }).drawdown = -10 ∧
    (updatePortfolio defaultPortfolio { currentEquity := some 110000 }).drawdown < 0 ∧
    (updatePortfolio defaultPortfolio { currentEquity := some 110000 }).drawdown ≠
      max 0 ((defaultPortfolio.peakEquity - 110000) / defaultPortfolio.peakEquity * 100) := by
  refine ⟨?_, ?_, ?_⟩ <;>
    norm_num [updatePortfolio, applyUpdate, defaultPortfolio, calculateDrawdown]

/-- C2 amended: on every portfolio update the recomputed drawdown equals
`(peakEquity − currentEquity)/peakEquity × 100` evaluated on the merged state
before the peak is raised (and 0 when that peakEquity ≤ 0); there is no
clamping at 0, so the stored drawdown is strictly negative whenever the merged
currentEquity exceeds the merged (pre-raise) peakEquity > 0. -/
theorem updatePortfolio_drawdown_formula (prev : PortfolioState) (u : PortfolioUpdate) :
    (updatePortfolio prev u).drawdown =
      (if (applyUpdate prev u).peakEquity ≤ 0 then 0
       else ((applyUpdate prev u).peakEquity - (applyUpdate prev u).currentEquity) /
         (applyUpdate prev u).peakEquity * 100) ∧
    (0 < (applyUpdate prev u).peakEquity →
      (applyUpdate prev u).peakEquity < (applyUpdate prev u).currentEquity →
      (updatePortfolio prev u).drawdown < 0) := by
  have hdd : (updatePortfolio prev u).drawdown =
      calculateDrawdown (applyUpdate prev u).currentEquity (applyUpdate prev u).peakEquity := by
    unfold updatePortfolio
    dsimp only
    split <;> rfl
  constructor
  · rw [hdd]; rfl
  · intro hpk hlt
    rw [hdd, calculateDrawdown, if_neg (not_le.mpr hpk)]
    have hnum : (applyUpdate prev u).peakEquity - (applyUpdate prev u).currentEquity < 0 := by
      linarith
    have := div_neg_of_neg_of_pos hnum hpk
    linarith [mul_pos (neg_pos.mpr this) (by norm_num : (0:ℚ) < 100)]

/-- Witness for C2's amended theorem at the counterexample state: merged peak
100000, merged equity 110000, stored drawdown matches the unclamped formula
and is negative. -/
theorem updatePortfolio_drawdown_formula_witness :
    ((updatePortfolio defaultPortfolio { currentEquity := some 110000 }).drawdown =
      (if (applyUpdate defaultPortfolio { currentEquity := some 110000 }).peakEquity ≤ 0 then 0
       else ((applyUpdate defaultPortfolio { currentEquity := some 110000 }).peakEquity -
           (applyUpdate defaultPortfolio { currentEquity := some 110000 }).currentEquity) /
         (applyUpdate defaultPortfolio { currentEquity := some 110000 }).peakEquity * 100)) ∧
    (updatePortfolio defaultPortfolio { currentEquity := some 110000 }).drawdown < 0 := by
  have h := updatePortfolio_drawdown_formula defaultPortfolio { currentEquity := some 110000 }
  exact ⟨h.1, h.2 (by norm_num [applyUpdate, defaultPortfolio])
    (by norm_num [applyUpdate, defaultPortfolio])⟩

/-- C4: under the spec's input signs, `calculatePositionSize` returns
quantity 0 when `stopLossPercent = 0`, and the floored quantity never
overshoots the risk budget: `quantity × stopLossAmount ≤ riskAmount`. -/
theorem positionSize_respects_risk_budget
    (capital riskPercent stopLossPercent entryPrice leverage : ℚ)
    (hcap : 0 < capital) (hrisk : 0 < riskPercent) (hsl : 0 ≤ stopLossPercent)
    (hentry : 0 < entryPrice) (hlev : 1 ≤ leverage) :
    (stopLossPercent = 0 →
      (calculatePositionSize capital riskPercent stopLossPercent entryPrice leverage).quantity = 0) ∧
    ((calculatePositionSize capital riskPercent stopLossPercent entryPrice leverage).riskAmount =
      capital * riskPercent / 100) ∧
    (((calculatePositionSize capital riskPercent stopLossPercent entryPrice leverage).quantity : ℚ) *
        (entryPrice * stopLossPercent / 100) ≤ capital * riskPercent / 100) := by
  have hra : 0 < capital * riskPercent / 100 := by positivity
  refine ⟨?_, rfl, ?_⟩
  · intro h0
    simp [calculatePositionSize, h0]
  · unfold calculatePositionSize
    by_cases hpos : entryPrice * stopLossPercent / 100 > 0
    · simp only [hpos, if_true]
      have hfl : (⌊capital * riskPercent / 100 / (entryPrice * stopLossPercent / 100)⌋ : ℚ) ≤
          capital * riskPercent / 100 / (entryPrice * stopLossPercent / 100) :=
        Int.floor_le _
      calc (⌊capital * riskPercent / 100 / (entryPrice * stopLossPercent / 100)⌋ : ℚ) *
            (entryPrice * stopLossPercent / 100)
          ≤ capital * riskPercent / 100 / (entryPrice * stopLossPercent / 100) *
            (entryPrice * stopLossPercent / 100) := by
            exact mul_le_mul_of_nonneg_right hfl (le_of_lt hpos)
        _ = capital * riskPercent / 100 := div_mul_cancel₀ _ (ne_of_gt hpos)
    · have hz : entryPrice * stopLossPercent / 100 = 0 := by
        have : 0 ≤ entryPrice * stopLossPercent / 100 := by positivity
        linarith [not_lt.mp hpos]
      simp only [hpos, if_false]
      rw [hz]
      simpa using le_of_lt hra

/-- Witness for C4 at the spec's worked example: capital 100000, risk 1%,
entry 2500, stop-loss 1%, leverage 1 — quantity 40, and 40 × 25 ≤ 1000. -/
theorem positionSize_respects_risk_budget_witness :
    ((calculatePositionSize 100000 1 1 2500 1).quantity = 40) ∧
    (((calculatePositionSize 100000 1 1 2500 1).quantity : ℚ) *
      ((2500 : ℚ) * 1 / 100) ≤ (100000 : ℚ) * 1 / 100) := by
  have h40 : ((100000 : ℚ) * 1 / 100) / (2500 * 1 / 100) = ((40 : ℤ) : ℚ) := by norm_num
  refine ⟨?_, ?_⟩
  · show (if (2500 : ℚ) * 1 / 100 > 0 then ⌊(100000 : ℚ) * 1 / 100 / (2500 * 1 / 100)⌋ else 0) = 40
    rw [if_pos (by norm_num), h40, Int.floor_intCast]
  exact (positionSize_respects_risk_budget 100000 1 1 2500 1 (by norm_num) (by norm_num)
    (by norm_num) (by norm_num) (by norm_num)).2.2

/-- Helper: the loop body `compoundingFrom` numbers its rows consecutively
starting at the initial loop counter. -/
theorem compoundingFrom_month (rate : ℚ) :
    ∀ (n : ℕ) (capital cum : ℚ) (month i : ℕ), i < n →
      ((compoundingFrom capital cum rate month n).getD i zeroProjection).month = month + i := by
  intro n
  induction n with
  | zero => intro capital cum month i hi; omega
  | succ n ih =>
    intro capital cum month i hi
    cases i with
    | zero => simp [compoundingFrom]
    | succ j =>
      have hj : j < n := Nat.lt_of_succ_lt_succ hi
      have := ih (capital + capital * (rate / 100)) (cum + capital * (rate / 100)) (month + 1) j hj
      simp only [compoundingFrom, List.getD_cons_succ]
      omega

/-- Helper: the first row produced by `compoundingFrom` takes its profit from
the incoming capital and accumulates it onto the incoming capital and
cumulative profit. -/
theorem compoundingFrom_head (rate : ℚ) (n : ℕ) (capital cum : ℚ) (month : ℕ) (hn : 0 < n) :
    ((compoundingFrom capital cum rate month n).getD 0 zeroProjection).profit =
      capital * (rate / 100) ∧
    ((compoundingFrom capital cum rate month n).getD 0 zeroProjection).capital =
      capital + ((compoundingFrom capital cum rate month n).getD 0 zeroProjection).profit ∧
    ((compoundingFrom capital cum rate month n).getD 0 zeroProjection).cumulativeProfit =
      cum + ((compoundingFrom capital cum rate month n).getD 0 zeroProjection).profit := by
  match n, hn with
  | Nat.succ m, _ => refine ⟨?_, ?_, ?_⟩ <;> simp [compoundingFrom]

/-- Helper: each later row of `compoundingFrom` takes its profit from the
previous row's capital and accumulates it onto the previous row's capital and
cumulative profit. -/
theorem compoundingFrom_chain (rate : ℚ) :
    ∀ (n : ℕ) (capital cum : ℚ) (month i : ℕ), i + 1 < n →
      ((compoundingFrom capital cum rate month n).getD (i+1) zeroProjection).profit =
        ((compoundingFrom capital cum rate month n).getD i zeroProjection).capital * (rate / 100) ∧
      ((compoundingFrom capital cum rate month n).getD (i+1) zeroProjection).capital =
        ((compoundingFrom capital cum rate month n).getD i zeroProjection).capital +
        ((compoundingFrom capital cum rate month n).getD (i+1) zeroProjection).profit ∧
      ((compoundingFrom capital cum rate month n).getD (i+1) zeroProjection).cumulativeProfit =
        ((compoundingFrom capital cum rate month n).getD i zeroProjection).cumulativeProfit +
        ((compoundingFrom capital cum rate month n).getD (i+1) zeroProjection).profit := by
  intro n
  induction n with
  | zero => intro capital cum month i hi; omega
  | succ n ih =>
    intro capital cum month i hi
    have hn : 0 < n := by omega
    cases i with
    | zero =>
      simp only [compoundingFrom, List.getD_cons_succ, List.getD_cons_zero]
      exact compoundingFrom_head rate n _ _ (month + 1) hn
    | succ k =>
      have hk : k + 1 < n := by omega
      have := ih (capital + capital * (rate / 100)) (cum + capital * (rate / 100)) (month + 1) k hk
      simpa only [compoundingFrom, List.getD_cons_succ] using this

/-- Helper: `compoundingFrom` produces exactly as many rows as requested
iterations. -/
theorem compoundingFrom_length (rate : ℚ) :
    ∀ (n : ℕ) (capital cum : ℚ) (month : ℕ),
      (compoundingFrom capital cum rate month n).length = n := by
  intro n
  induction n with
  | zero => intro capital cum month; rfl
  | succ n ih =>
    intro capital cum month
    simp [compoundingFrom, ih]

/-- C7: `calculateCompounding` returns exactly `months` snapshots numbered
`1..months` in order; the first month's profit is `startCapital × rate/100`
accumulated onto `startCapital` and a zero cumulative profit, each later
month's profit is the prior row's capital times `rate/100` accumulated onto
that capital and cumulative profit; and the spec's worked example
`calculateCompounding(100000, 5, 3)` yields capital values 105000, 110250,
115762.5. -/
theorem compounding_snapshots :
    (∀ (startCapital rate : ℚ) (months : ℕ),
      (calculateCompounding startCapital rate months).length = months) ∧
    (∀ (startCapital rate : ℚ) (months i : ℕ), i < months →
      ((calculateCompounding startCapital rate months).getD i zeroProjection).month = i + 1) ∧
    (∀ (startCapital rate : ℚ) (months : ℕ), 0 < months →
      ((calculateCompounding startCapital rate months).getD 0 zeroProjection).profit =
        startCapital * (rate / 100) ∧
      ((calculateCompounding startCapital rate months).getD 0 zeroProjection).capital =
        startCapital +
        ((calculateCompounding startCapital rate months).getD 0 zeroProjection).profit ∧
      ((calculateCompounding startCapital rate months).getD 0 zeroProjection).cumulativeProfit =
        0 + ((calculateCompounding startCapital rate months).getD 0 zeroProjection).profit) ∧
    (∀ (startCapital rate : ℚ) (months i : ℕ), i + 1 < months →
      ((calculateCompounding startCapital rate months).getD (i+1) zeroProjection).profit =
        ((calculateCompounding startCapital rate months).getD i zeroProjection).capital *
          (rate / 100) ∧
      ((calculateCompounding startCapital rate months).getD (i+1) zeroProjection).capital =
        ((calculateCompounding startCapital rate months).getD i zeroProjection).capital +
        ((calculateCompounding startCapital rate months).getD (i+1) zeroProjection).profit ∧
      ((calculateCompounding startCapital rate months).getD (i+1) zeroProjection).cumulativeProfit =
        ((calculateCompounding startCapital rate months).getD i zeroProjection).cumulativeProfit +
        ((calculateCompounding startCapital rate months).getD (i+1) zeroProjection).profit) ∧
    ((calculateCompounding 100000 5 3).map (fun e => e.capital) =
      [105000, 110250, 231525/2]) := by
  refine ⟨?_, ?_, ?_, ?_, ?_⟩
  · intro startCapital rate months
    exact compoundingFrom_length rate months startCapital 0 1
  · intro startCapital rate months i hi
    have := compoundingFrom_month rate months startCapital 0 1 i hi
    rw [calculateCompounding, this, Nat.add_comm]
  · intro startCapital rate months hm
    exact compoundingFrom_head rate months startCapital 0 1 hm
  · intro startCapital rate months i hi
    exact compoundingFrom_chain rate months startCapital 0 1 i hi
  · norm_num [calculateCompounding, compoundingFrom]

/-- Witness for C7 at the spec's example (100000, 5%, 3 months): 3 rows, the
second row is month 2, and its profit comes from the first row's capital. -/
theorem compounding_snapshots_witness :
    (calculateCompounding 100000 5 3).length = 3 ∧
    ((calculateCompounding 100000 5 3).getD 1 zeroProjection).month = 2 ∧
    ((calculateCompounding 100000 5 3).getD 0 zeroProjection).profit =
      (100000 : ℚ) * (5 / 100) ∧
    ((calculateCompounding 100000 5 3).getD 1 zeroProjection).profit =
      ((calculateCompounding 100000 5 3).getD 0 zeroProjection).capital * (5 / 100) :=
  ⟨compounding_snapshots.1 100000 5 3,
   compounding_snapshots.2.1 100000 5 3 1 (by norm_num),
   (compounding_snapshots.2.2.1 100000 5 3 (by norm_num)).1,
   (compounding_snapshots.2.2.2.1 100000 5 3 0 (by norm_num)).1⟩

/-- C6: `validateTrade`'s verdict is exactly emptiness of the error list
(warnings play no role in it), and at risk-reward 1.5 with the risk within
the per-trade limit, no loss-limit breach, drawdown at most 10 and trading
unlocked, the result is invalid with exactly the one risk-reward error and no
warnings. -/
theorem validateTrade_isValid_iff_no_errors :
    (∀ (riskReward riskPercent : ℚ) (limits : RiskLimits) (portfolio : PortfolioState),
      ((validateTrade riskReward riskPercent limits portfolio).isValid = true ↔
        (validateTrade riskReward riskPercent limits portfolio).errors = [])) ∧
    (∀ (riskPercent : ℚ) (limits : RiskLimits) (portfolio : PortfolioState),
      riskPercent ≤ limits.riskPerTrade →
      ¬(portfolio.dailyPnL < 0 ∧
          |portfolio.dailyPnL| / portfolio.capital * 100 ≥ limits.dailyLossLimit) →
      ¬(portfolio.weeklyPnL < 0 ∧
          |portfolio.weeklyPnL| / portfolio.capital * 100 ≥ limits.weeklyLossLimit) →
      ¬(portfolio.monthlyPnL < 0 ∧
          |portfolio.monthlyPnL| / portfolio.capital * 100 ≥ limits.monthlyLossLimit) →
      portfolio.drawdown ≤ 10 →
      portfolio.isTradingLocked = false →
      (validateTrade (3/2) riskPercent limits portfolio).isValid = false ∧
      (validateTrade (3/2) riskPercent limits portfolio).errors =
        [VError.rrBelowMin (3/2)] ∧
      (validateTrade (3/2) riskPercent limits portfolio).warnings = []) := by
  constructor
  · intro riskReward riskPercent limits portfolio
    simp only [validateTrade]
    rw [decide_eq_true_iff]
    exact List.length_eq_zero
  · intro riskPercent limits portfolio h1 h2 h3 h4 h5 h6
    have c1 : (3:ℚ)/2 < 2 := by norm_num
    have c2 : ¬ riskPercent > limits.riskPerTrade := not_lt.mpr h1
    have c5 : ¬ portfolio.drawdown > 10 := not_lt.mpr h5
    have c6 : ¬ portfolio.drawdown > 20 := by linarith
    simp [validateTrade, c1, c2, h2, h3, h4, c5, c6, h6]

/-- Witness for C6 at risk-reward 1.5, risk 1% against the default limits and
the default (clean) portfolio. -/
theorem validateTrade_isValid_iff_no_errors_witness :
    ((validateTrade (3/2) 1 DEFAULT_RISK_LIMITS defaultPortfolio).isValid = true ↔
      (validateTrade (3/2) 1 DEFAULT_RISK_LIMITS defaultPortfolio).errors = []) ∧
    (validateTrade (3/2) 1 DEFAULT_RISK_LIMITS defaultPortfolio).isValid = false ∧
    (validateTrade (3/2) 1 DEFAULT_RISK_LIMITS defaultPortfolio).errors =
      [VError.rrBelowMin (3/2)] ∧
    (validateTrade (3/2) 1 DEFAULT_RISK_LIMITS defaultPortfolio).warnings = [] := by
  refine ⟨validateTrade_isValid_iff_no_errors.1 (3/2) 1 DEFAULT_RISK_LIMITS defaultPortfolio,
    ?_⟩
  exact validateTrade_isValid_iff_no_errors.2 1 DEFAULT_RISK_LIMITS defaultPortfolio
    (by norm_num [DEFAULT_RISK_LIMITS])
    (by norm_num [defaultPortfolio])
    (by norm_num [defaultPortfolio])
    (by norm_num [defaultPortfolio])
    (by norm_num [defaultPortfolio])
    (by norm_num [defaultPortfolio])

/-- C9: every `updatePortfolio` step leaves `peakEquity ≥ currentEquity`;
when the update does not itself override `peakEquity`, the peak is never
lowered; and when the update does not itself override `maxDrawdown`, the new
`maxDrawdown` is exactly `max` of the previous one and the new drawdown, so
it is monotonically non-decreasing. -/
theorem updatePortfolio_peak_invariant (prev : PortfolioState) (u : PortfolioUpdate) :
    (updatePortfolio prev u).currentEquity ≤ (updatePortfolio prev u).peakEquity ∧
    (u.peakEquity = none → prev.peakEquity ≤ (updatePortfolio prev u).peakEquity) ∧
    (u.maxDrawdown = none →
      (updatePortfolio prev u).maxDrawdown =
        max prev.maxDrawdown (updatePortfolio prev u).drawdown ∧
      prev.maxDrawdown ≤ (updatePortfolio prev u).maxDrawdown) := by
  unfold updatePortfolio
  dsimp only
  split
  · rename_i h
    refine ⟨le_refl _, fun hp => ?_, fun hm => ?_⟩
    · have hpe : (applyUpdate prev u).peakEquity = prev.peakEquity := by
        simp [applyUpdate, hp]
      dsimp only
      rw [← hpe]
      exact le_of_lt h
    · have hme : (applyUpdate prev u).maxDrawdown = prev.maxDrawdown := by
        simp [applyUpdate, hm]
      dsimp only
      rw [hme]
      exact ⟨rfl, le_max_left _ _⟩
  · rename_i h
    refine ⟨le_of_not_lt h, fun hp => ?_, fun hm => ?_⟩
    · have hpe : (applyUpdate prev u).peakEquity = prev.peakEquity := by
        simp [applyUpdate, hp]
      dsimp only
      rw [hpe]
    · have hme : (applyUpdate prev u).maxDrawdown = prev.maxDrawdown := by
        simp [applyUpdate, hm]
      dsimp only
      rw [hme]
      exact ⟨rfl, le_max_left _ _⟩

/-- Witness for C9: lowering equity to 90000 from the default portfolio keeps
the peak at 100000 above the new equity, and folds the new 10% drawdown into
`maxDrawdown`. -/
theorem updatePortfolio_peak_invariant_witness :
    (updatePortfolio defaultPortfolio { currentEquity := some 90000 }).currentEquity ≤
      (updatePortfolio defaultPortfolio { currentEquity := some 90000 }).peakEquity ∧
    defaultPortfolio.peakEquity ≤
      (updatePortfolio defaultPortfolio { currentEquity := some 90000 }).peakEquity ∧
    (updatePortfolio defaultPortfolio { currentEquity := some 90000 }).maxDrawdown =
      max defaultPortfolio.maxDrawdown
        (updatePortfolio defaultPortfolio { currentEquity := some 90000 }).drawdown ∧
    defaultPortfolio.maxDrawdown ≤
      (updatePortfolio defaultPortfolio { currentEquity := some 90000 }).maxDrawdown := by
  have h := updatePortfolio_peak_invariant defaultPortfolio { currentEquity := some 90000 }
  exact ⟨h.1, h.2.1 rfl, (h.2.2 rfl).1, (h.2.2 rfl).2⟩

/-- Helper: the streak loop body's current win streak after one step. -/
theorem streakStep_currentWin (s : StreakState) (t : Trade) :
    (streakStep s t).currentWinStreak =
      if pnlOf t > 0 then s.currentWinStreak + 1 else 0 := by
  unfold streakStep
  split <;> simp_all

/-- Helper: the streak loop body's current loss streak after one step. -/
theorem streakStep_currentLoss (s : StreakState) (t : Trade) :
    (streakStep s t).currentLossStreak =
      if pnlOf t > 0 then 0 else s.currentLossStreak + 1 := by
  unfold streakStep
  split <;> simp_all

/-- Helper: folding the streak loop from the all-zero state leaves
`currentWinStreak` equal to the trailing run of winning trades. -/
theorem foldl_streak_win (l : List Trade) :
    (l.foldl streakStep ⟨0, 0, 0, 0⟩).currentWinStreak = trailingWinRun l := by
  induction l using List.reverseRecOn with
  | nil => rfl
  | append_singleton l t ih =>
    rw [List.foldl_append, List.foldl_cons, List.foldl_nil, streakStep_currentWin]
    by_cases h : pnlOf t > 0
    · simp [trailingWinRun, h, ih]
    · simp [trailingWinRun, h]

/-- Helper: folding the streak loop from the all-zero state leaves
`currentLossStreak` equal to the trailing run of non-winning (pnl ≤ 0)
trades. -/
theorem foldl_streak_loss (l : List Trade) :
    (l.foldl streakStep ⟨0, 0, 0, 0⟩).currentLossStreak = trailingLossRun l := by
  induction l using List.reverseRecOn with
  | nil => rfl
  | append_singleton l t ih =>
    rw [List.foldl_append, List.foldl_cons, List.foldl_nil, streakStep_currentLoss]
    by_cases h : pnlOf t > 0
    · simp [trailingLossRun, h, not_le.mpr h]
    · simp [trailingLossRun, h, not_lt.mp h, ih]

/-- C3 counterexample: a single closed trade with pnl exactly 0 yields
`streakType = NONE` and `currentStreak = 0`, not the `LOSS` streak of
length 1 the claim requires for pnl ≤ 0. -/
theorem performance_zero_pnl_last_trade :
    (calculatePerformanceMetrics [zeroPnlTrade]).streakType = StreakType.NONE ∧
    (calculatePerformanceMetrics [zeroPnlTrade]).currentStreak = 0 ∧
    (calculatePerformanceMetrics [zeroPnlTrade]).streakType ≠ StreakType.LOSS := by
  refine ⟨?_, ?_, ?_⟩ <;>
    simp [calculatePerformanceMetrics, closedTradesOf, zeroPnlTrade, pnlOf]

/-- C3 amended: on a non-empty closed-trade list, a last trade with pnl > 0
gives `streakType = WIN` with the trailing run of pnl > 0 trades, a last
trade with pnl < 0 gives `streakType = LOSS` with the trailing run of
pnl ≤ 0 trades (zero-pnl trades extend a loss run), and a last trade with
pnl exactly 0 gives `streakType = NONE` with `currentStreak = 0`. -/
theorem performance_trailing_streak (trades : List Trade) (lastT : Trade)
    (hlast : (closedTradesOf trades).getLast? = some lastT) :
    (0 < pnlOf lastT →
      (calculatePerformanceMetrics trades).streakType = StreakType.WIN ∧
      (calculatePerformanceMetrics trades).currentStreak =
        trailingWinRun (closedTradesOf trades)) ∧
    (pnlOf lastT < 0 →
      (calculatePerformanceMetrics trades).streakType = StreakType.LOSS ∧
      (calculatePerformanceMetrics trades).currentStreak =
        trailingLossRun (closedTradesOf trades)) ∧
    (pnlOf lastT = 0 →
      (calculatePerformanceMetrics trades).streakType = StreakType.NONE ∧
      (calculatePerformanceMetrics trades).currentStreak = 0) := by
  have hne : (closedTradesOf trades).isEmpty = false := by
    cases hcl : closedTradesOf trades with
    | nil => rw [hcl] at hlast; simp at hlast
    | cons a l => simp
  refine ⟨fun hpos => ?_, fun hneg => ?_, fun h0 => ?_⟩
  · constructor <;>
      simp [calculatePerformanceMetrics, hne, hlast, hpos, foldl_streak_win]
  · have hnp : ¬ pnlOf lastT > 0 := by linarith
    constructor <;>
      simp [calculatePerformanceMetrics, hne, hlast, hneg, hnp, foldl_streak_loss]
  · constructor <;>
      simp [calculatePerformanceMetrics, hne, hlast, h0]

/-- Witness for C3's amended theorem on a single closed losing trade: the
trailing run is a loss run of the claimed length. -/
theorem performance_trailing_streak_witness :
    (calculatePerformanceMetrics [lossTrade]).streakType = StreakType.LOSS ∧
    (calculatePerformanceMetrics [lossTrade]).currentStreak =
      trailingLossRun (closedTradesOf [lossTrade]) := by
  have h := performance_trailing_streak [lossTrade] lossTrade
    (by simp [closedTradesOf, lossTrade])
  exact h.2.1 (by norm_num [pnlOf, lossTrade])

/-- Helper: the closing map of `closeTrade` does not change a trade's id. -/
theorem closeTradeEntry_id (id : String) (exitPrice : ℚ) (t : Trade) :
    (closeTradeEntry id exitPrice t).id = t.id := by
  unfold closeTradeEntry
  split <;> rfl

/-- Helper: finding the closed trade in the mapped list is the same as
mapping the closing update over the trade found in the original list. -/
theorem find_map_closeTradeEntry (id : String) (exitPrice : ℚ) (l : List Trade) :
    (l.map (closeTradeEntry id exitPrice)).find? (fun t => t.id = id) =
      (l.find? (fun t => t.id = id)).map (closeTradeEntry id exitPrice) := by
  induction l with
  | nil => rfl
  | cons t l ih =>
    by_cases h : t.id = id
    · rw [List.map_cons, List.find?_cons_of_pos _ (by simp [closeTradeEntry_id, h]),
        List.find?_cons_of_pos _ (by simp [h])]
      rfl
    · rw [List.map_cons, List.find?_cons_of_neg _ (by simp [closeTradeEntry_id, h]),
        List.find?_cons_of_neg _ (by simp [h]), ih]

/-- C10: closing a trade whose computed pnl is exactly 0 marks every trade
carrying the id as `CLOSED` with the exit price and a pnl of 0 recorded, but
leaves the portfolio (hence `dailyPnL`, `weeklyPnL`, `monthlyPnL` and
`currentEquity`) and the session (hence the consecutive-loss counter)
entirely unchanged: the zero pnl fails the truthiness guard, and the
portfolio-update branch is skipped. -/
theorem closeTrade_zero_pnl_frame (s : AppState) (id : String) (exitPrice : ℚ)
    (h : ∀ t ∈ s.trades, t.id = id → computePnl t exitPrice = 0) :
    (closeTrade s id exitPrice).portfolio = s.portfolio ∧
    (closeTrade s id exitPrice).session = s.session ∧
    (closeTrade s id exitPrice).trades = s.trades.map (closeTradeEntry id exitPrice) ∧
    (∀ t ∈ s.trades, t.id = id →
      ({ t with exitPrice := some exitPrice, pnl := some 0, status := TradeStatus.CLOSED } : Trade) ∈ (closeTrade s id exitPrice).trades) := by
  have hmem : ∀ t ∈ s.trades, t.id = id →
      ({ t with exitPrice := some exitPrice, pnl := some 0, status := TradeStatus.CLOSED } : Trade) ∈ s.trades.map (closeTradeEntry id exitPrice) := by
    intro t ht hid
    have he : closeTradeEntry id exitPrice t =
        { t with exitPrice := some exitPrice, pnl := some 0, status := TradeStatus.CLOSED } := by
      unfold closeTradeEntry
      rw [if_pos hid, h t ht hid]
    exact he ▸ List.mem_map_of_mem (closeTradeEntry id exitPrice) ht
  unfold closeTrade
  dsimp only
  rw [find_map_closeTradeEntry]
  cases hf : s.trades.find? (fun t => t.id = id) with
  | none => exact ⟨rfl, rfl, rfl, hmem⟩
  | some t0 =>
    have ht0 : t0 ∈ s.trades := List.mem_of_find?_eq_some hf
    have hid0 : t0.id = id := by
      have := List.find?_some hf
      simpa using this
    have hpnl : (closeTradeEntry id exitPrice t0).pnl = some 0 := by
      unfold closeTradeEntry
      rw [if_pos hid0]
      simp [h t0 ht0 hid0]
    dsimp only [Option.map]
    rw [hpnl]
    dsimp only
    rw [if_neg (by simp)]
    exact ⟨rfl, rfl, rfl, hmem⟩

/-- Witness for C10: closing the sample state's open trade at its entry
price 100 leaves the portfolio and the 2-loss session untouched while the
trade list records the closed trade with pnl 0. -/
theorem closeTrade_zero_pnl_frame_witness :
    (closeTrade sampleState "t1" 100).portfolio = sampleState.portfolio ∧
    (closeTrade sampleState "t1" 100).session = sampleState.session ∧
    ({ openTrade with exitPrice := some 100, pnl := some 0, status := TradeStatus.CLOSED } : Trade) ∈ (closeTrade sampleState "t1" 100).trades := by
  have h := closeTrade_zero_pnl_frame sampleState "t1" 100 (by
    intro t ht hid
    have : t = openTrade := by simpa [sampleState] using ht
    subst this
    norm_num [computePnl, openTrade])
  exact ⟨h.1, h.2.1, h.2.2.2 openTrade (by simp [sampleState]) rfl⟩

end TradeGuardian
